import Mathlib

/-!
Shallow embedding of `src/mcp_server.py` (AnChain.AI AML MCP server).

The server exposes eight tool functions; each validates/defaults its
parameters, resolves an API key via `check_apikey`, issues exactly one
outbound HTTP request and returns the decoded JSON response (with one
post-processing branch in `get_transaction`).  We model:

- JSON values as an inductive `Json` (objects are association lists;
  the Python source only ever builds dicts with pairwise-distinct keys,
  so first-occurrence lookup/removal matches `dict` semantics);
- the process-wide globals (`remote`, `anchain_apikey`) and the
  per-request inbound headers as an `Env` record;
- a Python exception escaping a tool as `Except MCPError`: a tool
  function returns either `.error e` (the exception raised before any
  outbound call was made) or `.ok r` where `r : HttpRequest` describes
  the single outbound request the tool issues.  Since every tool passes
  the vendor's decoded response through unmodified, the request value
  determines the tool's behaviour; `get_transaction`, the one tool that
  post-processes the response, additionally gets a pure response
  handler `get_transaction_post` and a combined `get_transaction` that
  takes the network as an oracle `HttpRequest → Json`.
-/

/-- JSON values, as decoded by `res.json()` / built for `json=payload`.
Objects are association lists of key/value pairs in insertion order. -/
inductive Json where
  | null : Json
  | bool (b : Bool) : Json
  | num (n : Int) : Json
  | str (s : String) : Json
  | arr (elems : List Json) : Json
  | obj (fields : List (String × Json)) : Json
deriving Repr

/-- Python `d[k]` on a decoded JSON value, as an `Option`: `none` both
when the key is missing (`KeyError`) and when the value is not a dict
(`TypeError`); either way the subscript raises, which the embedded code
observes as `none`. -/
def jsonLookup : Json → String → Option Json
  | .obj fields, k => fields.lookup k
  | _, _ => none

/-- Removal of the (first) entry with key `k`, modelling `dict.pop(k)`
on a dict that contains `k` (Python dict keys are unique). -/
def removeKey : List (String × Json) → String → List (String × Json)
  | [], _ => []
  | (k, v) :: rest, key => if k = key then rest else (k, v) :: removeKey rest key

/-- The exception types imported from `fastmcp.exceptions` that a tool
call can surface. The source only ever raises `ValidationError`. -/
inductive MCPError where
  | validationError (msg : String)
  | notFoundError (msg : String)
  | fastMCPError (msg : String)
deriving Repr, DecidableEq

/-- HTTP method of an outbound `requests` call. -/
inductive Method where
  | get : Method
  | post : Method
deriving Repr, DecidableEq

/-- The single outbound HTTP request a tool issues: method, full URL,
query parameters (`params=` of `requests.get`), JSON body (`json=` of
`requests.post`) and request headers. -/
structure HttpRequest where
  method : Method
  url : String
  params : List (String × String)
  jsonBody : Option Json
  headers : List (String × String)
deriving Repr

/-- Process-wide state and per-request context read by `check_apikey`:
the `remote` flag and `anchain_apikey` global (module level, set once in
`main`), and the inbound request headers (`get_http_headers()`, only
meaningful in remote mode). `anchain_apikey` is `Option String` because
the global starts as `None`. -/
structure Env where
  remote : Bool
  anchain_apikey : Option String
  http_headers : List (String × String)
deriving Repr, DecidableEq

/-- Models `get_http_headers().get(key, default)`: Python `dict.get` with a
default. -/
def headersGet (hs : List (String × String)) (key dflt : String) : String :=
  match hs.lookup key with
  | some v => v
  | none => dflt

/-- The credential value `check_apikey` resolves before its emptiness
check: the `x-api-key` inbound header (empty string if absent) in remote
mode, the stored `anchain_apikey` global in local mode. -/
def resolve_apikey (env : Env) : Option String :=
  if env.remote then some (headersGet env.http_headers "x-api-key" "")
  else env.anchain_apikey

/-- Embeds `check_apikey()`: resolve the credential per mode, then raise
`ValidationError("no anchain apikey provided")` if it is falsy
(`None` or the empty string). -/
def check_apikey (env : Env) : Except MCPError String :=
  match resolve_apikey env with
  | none => .error (.validationError "no anchain apikey provided")
  | some apikey =>
    if apikey = "" then .error (.validationError "no anchain apikey provided")
    else .ok apikey

/-- Module-level `url` global: the vendor API base path. -/
def url : String := "https://aml.anchainai.com/api"

/-- The headers dict `{"Authorization": f"Bearer {apikey}"}` every tool
attaches to its outbound request. -/
def bearer (apikey : String) : List (String × String) :=
  [("Authorization", "Bearer " ++ apikey)]

/-- Embeds `crypto_screening(address, protocol)`: GET `/crypto_screening` with
`action=score`; response passed through. -/
def crypto_screening (env : Env) (address protocol : String) :
    Except MCPError HttpRequest :=
  match check_apikey env with
  | .error e => .error e
  | .ok apikey =>
    .ok { method := .get, url := url ++ "/crypto_screening",
          params := [("protocol", protocol), ("address", address), ("action", "score")],
          jsonBody := none, headers := bearer apikey }

/-- Embeds `crypto_activity_screening(address, protocol)`: GET
`/crypto_screening` with `action=activity`; response passed through. -/
def crypto_activity_screening (env : Env) (address protocol : String) :
    Except MCPError HttpRequest :=
  match check_apikey env with
  | .error e => .error e
  | .ok apikey =>
    .ok { method := .get, url := url ++ "/crypto_screening",
          params := [("protocol", protocol), ("address", address), ("action", "activity")],
          jsonBody := none, headers := bearer apikey }

/-- Embeds `crypto_attribution_screening(address, protocol)`: GET
`/crypto_screening` with `action=attribution`; response passed through. -/
def crypto_attribution_screening (env : Env) (address protocol : String) :
    Except MCPError HttpRequest :=
  match check_apikey env with
  | .error e => .error e
  | .ok apikey =>
    .ok { method := .get, url := url ++ "/crypto_screening",
          params := [("protocol", protocol), ("address", address), ("action", "attribution")],
          jsonBody := none, headers := bearer apikey }

/-- Python truthiness of an optional list argument (`if name:`):
`None` and `[]` are falsy. -/
def truthyStrList : Option (List String) → Bool
  | none => false
  | some l => !l.isEmpty

/-- Python truthiness of an optional string argument (`if address:`):
`None` and `""` are falsy. -/
def truthyStr : Option String → Bool
  | none => false
  | some s => !(s == "")

/-- Python truthiness of an optional int argument (`if max_amount:`):
`None` and `0` are falsy. -/
def truthyInt : Option Int → Bool
  | none => false
  | some n => !(n == 0)

/-- Arguments of `sanctions_screening`, with the Python signature's
default values (`schema='person'`, `scope='basic'`, the four property
fields defaulting to `None`). -/
structure SanctionsArgs where
  schema : String := "person"
  scope : String := "basic"
  name : Option (List String) := none
  idNumber : Option (List String) := none
  nationality : Option (List String) := none
  birthYear : Option (List String) := none
deriving Repr, DecidableEq

/-- The `payload` dict `sanctions_screening` builds: `schema`, `scope`,
and a nested `properties` object receiving, in order, each of
`name`/`idNumber`/`nationality`/`birthYear` that is truthy. -/
def sanctions_payload (a : SanctionsArgs) : Json :=
  let props : List (String × Json) :=
    (if truthyStrList a.name then
      [("name", Json.arr ((a.name.getD []).map Json.str))] else [])
    ++ (if truthyStrList a.idNumber then
      [("idNumber", Json.arr ((a.idNumber.getD []).map Json.str))] else [])
    ++ (if truthyStrList a.nationality then
      [("nationality", Json.arr ((a.nationality.getD []).map Json.str))] else [])
    ++ (if truthyStrList a.birthYear then
      [("birthYear", Json.arr ((a.birthYear.getD []).map Json.str))] else [])
  Json.obj [("schema", Json.str a.schema), ("scope", Json.str a.scope),
            ("properties", Json.obj props)]

/-- Embeds `sanctions_screening(...)`: resolve the key, build `payload`, POST
`/sanctions_screening`; response passed through. No local check that at
least one property was provided. -/
def sanctions_screening (env : Env) (a : SanctionsArgs) :
    Except MCPError HttpRequest :=
  match check_apikey env with
  | .error e => .error e
  | .ok apikey =>
    .ok { method := .post, url := url ++ "/sanctions_screening",
          params := [], jsonBody := some (sanctions_payload a),
          headers := bearer apikey }

/-- Embeds `ip_screening(ip_address)`: GET `/ip_screening`; response passed
through. -/
def ip_screening (env : Env) (ip_address : String) :
    Except MCPError HttpRequest :=
  match check_apikey env with
  | .error e => .error e
  | .ok apikey =>
    .ok { method := .get, url := url ++ "/ip_screening",
          params := [("ip_address", ip_address)],
          jsonBody := none, headers := bearer apikey }

/-- Arguments of `auto_trace`, with the Python signature's default
values (`direction='in'`, `time_window=365`, `min_amount=0`, the rest
of the optional ones defaulting to `None`). -/
structure AutoTraceArgs where
  protocol : String
  time_from : Int
  time_to : Int
  address : Option String := none
  txn_hash : Option String := none
  direction : String := "in"
  time_window : Int := 365
  min_amount : Int := 0
  max_amount : Option Int := none
  token : Option String := none
deriving Repr, DecidableEq

/-- Python `None`-or-string as a JSON value (`txn_hash` is inserted verbatim
into the payload, so `None` becomes JSON `null`). -/
def optStrJson : Option String → Json
  | none => Json.null
  | some s => Json.str s

/-- The `payload` dict `auto_trace` builds: the six unconditional keys,
then `address` if truthy else `txnhash` (verbatim), then `max_amount`
and `token` each only if truthy. -/
def auto_trace_payload (a : AutoTraceArgs) : Json :=
  let base : List (String × Json) :=
    [("proto", Json.str a.protocol), ("direct", Json.str a.direction),
     ("time_from", Json.num a.time_from), ("time_to", Json.num a.time_to),
     ("time_window", Json.num a.time_window), ("min_amount", Json.num a.min_amount)]
  let addrPart : List (String × Json) :=
    if truthyStr a.address then [("address", Json.str (a.address.getD ""))]
    else [("txnhash", optStrJson a.txn_hash)]
  let maxPart : List (String × Json) :=
    if truthyInt a.max_amount then [("max_amount", Json.num (a.max_amount.getD 0))] else []
  let tokenPart : List (String × Json) :=
    if truthyStr a.token then [("token", Json.str (a.token.getD ""))] else []
  Json.obj (base ++ addrPart ++ maxPart ++ tokenPart)

/-- Embeds `auto_trace(...)`: build `payload`, resolve the key, POST
`/crypto_auto_trace`; response passed through. -/
def auto_trace (env : Env) (a : AutoTraceArgs) :
    Except MCPError HttpRequest :=
  let payload := auto_trace_payload a
  match check_apikey env with
  | .error e => .error e
  | .ok apikey =>
    .ok { method := .post, url := url ++ "/crypto_auto_trace",
          params := [], jsonBody := some payload, headers := bearer apikey }

/-- Embeds `get_source_code(address, protocol)`: GET `/smart_contract_agent`
with `action=contract`; response passed through. -/
def get_source_code (env : Env) (address protocol : String) :
    Except MCPError HttpRequest :=
  match check_apikey env with
  | .error e => .error e
  | .ok apikey =>
    .ok { method := .get, url := url ++ "/smart_contract_agent",
          params := [("action", "contract"), ("protocol", protocol),
                     ("contract_address", address)],
          jsonBody := none, headers := bearer apikey }

/-- The request `get_transaction` issues: GET `/smart_contract_agent`
with `action=transaction`. -/
def get_transaction_request (env : Env) (transaction_hash protocol : String) :
    Except MCPError HttpRequest :=
  match check_apikey env with
  | .error e => .error e
  | .ok apikey =>
    .ok { method := .get, url := url ++ "/smart_contract_agent",
          params := [("action", "transaction"), ("protocol", protocol),
                     ("transaction_hash", transaction_hash)],
          jsonBody := none, headers := bearer apikey }

/-- The scope branch of `get_transaction`'s `try` block, applied to the
already-extracted transaction object `t`: for `summary` the
`result.pop('data')` call removes the key in place, and for `full`
`result = result.pop('data')` replaces `result` — in both branches a
failing `pop` (key missing, or `t` not a dict) raises into the
`except: pass` with `result` already bound to `t`, so `t` itself is
returned; any other scope leaves `t` untouched. -/
def get_transaction_trim : Json → String → Json
  | .obj fields, scope =>
    if scope = "summary" then
      match fields.lookup "data" with
      | none => .obj fields
      | some _ => .obj (removeKey fields "data")
    else if scope = "full" then
      match fields.lookup "data" with
      | none => .obj fields
      | some v => v
    else .obj fields
  | t, _ => t

/-- The whole `try`/`except: pass` block of `get_transaction` over the
decoded response. `result` starts as the envelope;
`result = result['data']['transaction']` reassigns it on success — a
failure of either subscript is caught with `result` still the envelope,
which is returned unmodified; on success the scope branch
(`get_transaction_trim`) runs on the transaction object. -/
def get_transaction_post (envelope : Json) (scope : String) : Json :=
  match jsonLookup envelope "data" with
  | none => envelope
  | some d =>
    match jsonLookup d "transaction" with
    | none => envelope
    | some t => get_transaction_trim t scope

/-- Embeds `get_transaction(transaction_hash, protocol, scope)` end to end,
with the network as an oracle: resolve the key, issue the request,
post-process the decoded response. -/
def get_transaction (env : Env) (http : HttpRequest → Json)
    (transaction_hash protocol scope : String) : Except MCPError Json :=
  match check_apikey env with
  | .error e => .error e
  | .ok apikey =>
    let result := http
      { method := .get, url := url ++ "/smart_contract_agent",
        params := [("action", "transaction"), ("protocol", protocol),
                   ("transaction_hash", transaction_hash)],
        jsonBody := none, headers := bearer apikey }
    .ok (get_transaction_post result scope)

/-- The result of a tool call carries the Authorization header
`Bearer <k>`: whenever the call issued an outbound request, that
request's headers are exactly `{"Authorization": "Bearer " + k}`. -/
def authHeaderIs (res : Except MCPError HttpRequest) (k : String) : Prop :=
  ∀ r, res = .ok r → r.headers = [("Authorization", "Bearer " ++ k)]

/-- Every one of the eight tool functions attaches `Bearer <k>` to any
outbound request it issues in environment `env`. -/
def allToolsAuth (env : Env) (k : String) : Prop :=
  (∀ address protocol, authHeaderIs (crypto_screening env address protocol) k)
  ∧ (∀ address protocol, authHeaderIs (crypto_activity_screening env address protocol) k)
  ∧ (∀ address protocol, authHeaderIs (crypto_attribution_screening env address protocol) k)
  ∧ (∀ a, authHeaderIs (sanctions_screening env a) k)
  ∧ (∀ ip_address, authHeaderIs (ip_screening env ip_address) k)
  ∧ (∀ a, authHeaderIs (auto_trace env a) k)
  ∧ (∀ address protocol, authHeaderIs (get_source_code env address protocol) k)
  ∧ (∀ th p, authHeaderIs (get_transaction_request env th p) k)

/-! ## Helper lemmas (shared across the development) -/

/-- The only exception `check_apikey` can raise is
`ValidationError("no anchain apikey provided")`. -/
theorem check_apikey_error_shape (env : Env) (e : MCPError)
    (h : check_apikey env = .error e) :
    e = .validationError "no anchain apikey provided" := by
  unfold check_apikey at h
  cases hr : resolve_apikey env with
  | none => rw [hr] at h; exact (Except.error.inj h).symm
  | some k =>
    rw [hr] at h
    by_cases hk : k = ""
    · simp only [hk, if_pos] at h
      simp at h
      exact h.symm
    · simp [hk] at h

/-- When `check_apikey` succeeds, the credential it returns is the one
`resolve_apikey` produced, and it is non-empty. -/
theorem check_apikey_ok_resolve (env : Env) (k : String)
    (h : check_apikey env = .ok k) :
    resolve_apikey env = some k ∧ k ≠ "" := by
  unfold check_apikey at h
  cases hr : resolve_apikey env with
  | none => rw [hr] at h; exact absurd h (by simp)
  | some k0 =>
    rw [hr] at h
    by_cases hk : k0 = ""
    · simp [hk] at h
    · simp [hk] at h
      have hkk : k0 = k := h
      subst hkk
      exact ⟨rfl, hk⟩

/-- When `check_apikey` raises, every tool function re-raises the same
exception (and, the result being an `.error`, no `HttpRequest` value —
no outbound call — is produced). -/
theorem tools_error_of_check (env : Env) (e : MCPError)
    (h : check_apikey env = .error e) :
    (∀ address protocol, crypto_screening env address protocol = .error e)
    ∧ (∀ address protocol, crypto_activity_screening env address protocol = .error e)
    ∧ (∀ address protocol, crypto_attribution_screening env address protocol = .error e)
    ∧ (∀ a, sanctions_screening env a = .error e)
    ∧ (∀ ip_address, ip_screening env ip_address = .error e)
    ∧ (∀ a, auto_trace env a = .error e)
    ∧ (∀ address protocol, get_source_code env address protocol = .error e)
    ∧ (∀ th p, get_transaction_request env th p = .error e)
    ∧ (∀ http th p s, get_transaction env http th p s = .error e) := by
  refine ⟨?_, ?_, ?_, ?_, ?_, ?_, ?_, ?_, ?_⟩
  · intro address protocol; unfold crypto_screening; rw [h]
  · intro address protocol; unfold crypto_activity_screening; rw [h]
  · intro address protocol; unfold crypto_attribution_screening; rw [h]
  · intro a; unfold sanctions_screening; rw [h]
  · intro ip_address; unfold ip_screening; rw [h]
  · intro a; unfold auto_trace; rw [h]
  · intro address protocol; unfold get_source_code; rw [h]
  · intro th p; unfold get_transaction_request; rw [h]
  · intro http th p s; unfold get_transaction; rw [h]

/-! ## C1 -/

/-- C1: if the credential `check_apikey` resolves is empty or missing
(i.e. `check_apikey` fails), then every one of the eight tool functions
fails with that same `ValidationError`-kind exception, unchanged, and —
the result being an error rather than an `HttpRequest` — no outbound
HTTP request is issued. -/
theorem credential_failure_blocks_all_tools (env : Env) (e : MCPError)
    (h : check_apikey env = .error e) :
    e = .validationError "no anchain apikey provided"
    ∧ (∀ address protocol, crypto_screening env address protocol = .error e)
    ∧ (∀ address protocol, crypto_activity_screening env address protocol = .error e)
    ∧ (∀ address protocol, crypto_attribution_screening env address protocol = .error e)
    ∧ (∀ a, sanctions_screening env a = .error e)
    ∧ (∀ ip_address, ip_screening env ip_address = .error e)
    ∧ (∀ a, auto_trace env a = .error e)
    ∧ (∀ address protocol, get_source_code env address protocol = .error e)
    ∧ (∀ http th p s, get_transaction env http th p s = .error e) := by
  obtain ⟨h1, h2, h3, h4, h5, h6, h7, _h8, h9⟩ := tools_error_of_check env e h
  exact ⟨check_apikey_error_shape env e h, h1, h2, h3, h4, h5, h6, h7, h9⟩

/-- C1 witness: a local-mode environment whose stored credential was
never set makes a concrete `crypto_screening` call fail with the
`ValidationError`. -/
theorem credential_failure_blocks_all_tools_witness :
    crypto_screening ⟨false, none, []⟩ "bc1qxy" "btc"
      = .error (.validationError "no anchain apikey provided") :=
  (credential_failure_blocks_all_tools ⟨false, none, []⟩
    (.validationError "no anchain apikey provided") rfl).2.1 "bc1qxy" "btc"

/-! ## C2 -/

/-- C2: `check_apikey` consults exactly one credential source, chosen by
the `remote` flag alone: in remote mode the resolved credential is the
inbound `x-api-key` header (empty string if absent) and the result does
not depend on the stored credential; in local mode the resolved
credential is the stored one and the result does not depend on the
inbound headers. -/
theorem check_apikey_single_source (env : Env) :
    (env.remote = true →
      resolve_apikey env = some (headersGet env.http_headers "x-api-key" "")
      ∧ ∀ stored, check_apikey { env with anchain_apikey := stored } = check_apikey env)
    ∧ (env.remote = false →
      resolve_apikey env = env.anchain_apikey
      ∧ ∀ hs, check_apikey { env with http_headers := hs } = check_apikey env) := by
  constructor
  · intro hr
    refine ⟨by simp [resolve_apikey, hr], ?_⟩
    intro stored
    simp [check_apikey, resolve_apikey, hr]
  · intro hr
    refine ⟨by simp [resolve_apikey, hr], ?_⟩
    intro hs
    simp [check_apikey, resolve_apikey, hr]

/-- C2 witness: in a concrete remote-mode environment the header is
resolved, and swapping the stored credential does not change the
result; in a concrete local-mode environment the stored credential is
resolved, and swapping the headers does not change the result. -/
theorem check_apikey_single_source_witness :
    (resolve_apikey ⟨true, some "stored", [("x-api-key", "hdr")]⟩ = some "hdr"
      ∧ check_apikey ⟨true, some "other", [("x-api-key", "hdr")]⟩
          = check_apikey ⟨true, some "stored", [("x-api-key", "hdr")]⟩)
    ∧ (resolve_apikey ⟨false, some "stored", [("x-api-key", "hdr")]⟩ = some "stored"
      ∧ check_apikey ⟨false, some "stored", [("other", "v")]⟩
          = check_apikey ⟨false, some "stored", [("x-api-key", "hdr")]⟩) := by
  constructor
  · have h := (check_apikey_single_source ⟨true, some "stored", [("x-api-key", "hdr")]⟩).1 rfl
    exact ⟨h.1, h.2 (some "other")⟩
  · have h := (check_apikey_single_source ⟨false, some "stored", [("x-api-key", "hdr")]⟩).2 rfl
    exact ⟨h.1, h.2 [("other", "v")]⟩

/-! ## C3 -/

/-- A successful result whose request carries `bearer k` satisfies
`authHeaderIs`. -/
theorem authHeaderIs_ok (req : HttpRequest) (k : String)
    (h : req.headers = bearer k) : authHeaderIs (.ok req) k := by
  intro r hr
  have hrr : req = r := Except.ok.inj hr
  subst hrr
  exact h

/-- A failed call vacuously satisfies `authHeaderIs` (no request was
issued). -/
theorem authHeaderIs_error (e : MCPError) (k : String) :
    authHeaderIs (.error e) k := by
  intro r hr
  exact absurd hr (by simp)

/-- When `check_apikey` returns `k`, every tool attaches `Bearer k`. -/
theorem allToolsAuth_of_check (env : Env) (k : String)
    (h : check_apikey env = .ok k) : allToolsAuth env k := by
  refine ⟨?_, ?_, ?_, ?_, ?_, ?_, ?_, ?_⟩
  · intro address protocol
    unfold crypto_screening
    rw [h]
    exact authHeaderIs_ok _ _ rfl
  · intro address protocol
    unfold crypto_activity_screening
    rw [h]
    exact authHeaderIs_ok _ _ rfl
  · intro address protocol
    unfold crypto_attribution_screening
    rw [h]
    exact authHeaderIs_ok _ _ rfl
  · intro a
    unfold sanctions_screening
    rw [h]
    exact authHeaderIs_ok _ _ rfl
  · intro ip_address
    unfold ip_screening
    rw [h]
    exact authHeaderIs_ok _ _ rfl
  · intro a
    unfold auto_trace
    rw [h]
    exact authHeaderIs_ok _ _ rfl
  · intro address protocol
    unfold get_source_code
    rw [h]
    exact authHeaderIs_ok _ _ rfl
  · intro th p
    unfold get_transaction_request
    rw [h]
    exact authHeaderIs_ok _ _ rfl

/-- When `check_apikey` fails, every tool trivially satisfies
`authHeaderIs` (no request is issued at all). -/
theorem allToolsAuth_of_error (env : Env) (e : MCPError) (k : String)
    (h : check_apikey env = .error e) : allToolsAuth env k := by
  obtain ⟨h1, h2, h3, h4, h5, h6, h7, h8, _⟩ := tools_error_of_check env e h
  refine ⟨?_, ?_, ?_, ?_, ?_, ?_, ?_, ?_⟩
  · intro address protocol; rw [h1 address protocol]; exact authHeaderIs_error e k
  · intro address protocol; rw [h2 address protocol]; exact authHeaderIs_error e k
  · intro address protocol; rw [h3 address protocol]; exact authHeaderIs_error e k
  · intro a; rw [h4 a]; exact authHeaderIs_error e k
  · intro ip_address; rw [h5 ip_address]; exact authHeaderIs_error e k
  · intro a; rw [h6 a]; exact authHeaderIs_error e k
  · intro address protocol; rw [h7 address protocol]; exact authHeaderIs_error e k
  · intro th p; rw [h8 th p]; exact authHeaderIs_error e k

/-- C3: every outbound request carries
`Authorization: Bearer <resolved credential>` — in local mode with a
stored non-empty credential `k`, every tool's request carries
`Bearer k` regardless of the inbound per-request headers; in remote
mode every tool's request carries `Bearer <x-api-key header value>`. -/
theorem outbound_authorization_header (env : Env) :
    (∀ k, env.remote = false → env.anchain_apikey = some k → k ≠ "" →
      allToolsAuth env k)
    ∧ (env.remote = true →
      allToolsAuth env (headersGet env.http_headers "x-api-key" "")) := by
  constructor
  · intro k hr ha hk
    have hok : check_apikey env = .ok k := by
      simp [check_apikey, resolve_apikey, hr, ha, hk]
    exact allToolsAuth_of_check env k hok
  · intro hr
    by_cases hk : headersGet env.http_headers "x-api-key" "" = ""
    · have herr : check_apikey env
          = .error (.validationError "no anchain apikey provided") := by
        simp [check_apikey, resolve_apikey, hr, hk]
      exact allToolsAuth_of_error env _ _ herr
    · have hok : check_apikey env = .ok (headersGet env.http_headers "x-api-key" "") := by
        simp [check_apikey, resolve_apikey, hr, hk]
      exact allToolsAuth_of_check env _ hok

/-- C3 witness: in a concrete local-mode environment with stored key
`"secret"` (and a spoofed inbound header), `crypto_screening`'s request
carries `Bearer secret`; in a concrete remote-mode environment the
request carries the `x-api-key` header value. -/
theorem outbound_authorization_header_witness :
    authHeaderIs
      (crypto_screening ⟨false, some "secret", [("x-api-key", "spoof")]⟩ "a" "btc")
      "secret"
    ∧ authHeaderIs
      (ip_screening ⟨true, some "stored", [("x-api-key", "hdr")]⟩ "1.2.3.4")
      "hdr" := by
  constructor
  · exact ((outbound_authorization_header
      ⟨false, some "secret", [("x-api-key", "spoof")]⟩).1 "secret" rfl rfl
      (by decide)).1 "a" "btc"
  · exact ((outbound_authorization_header
      ⟨true, some "stored", [("x-api-key", "hdr")]⟩).2 rfl).2.2.2.2.1 "1.2.3.4"

/-! ## C4, C5, C10 -/

/-- The scope branch leaves the transaction object untouched when it has
no nested `data` key (the `pop` raises into `except: pass`). -/
theorem get_transaction_trim_no_data (t : Json) (scope : String)
    (h : jsonLookup t "data" = none) : get_transaction_trim t scope = t := by
  cases t with
  | obj fields =>
    have hn : fields.lookup "data" = none := h
    simp only [get_transaction_trim]
    split_ifs <;> simp only [hn]
  | null => rfl
  | bool b => rfl
  | num n => rfl
  | str s => rfl
  | arr elems => rfl

/-- C4 counterexample: on the envelope
`{"data": {"transaction": {"overview": "x"}}}` — where `data.transaction`
exists but lacks the nested `data` key — `get_transaction` with scope
`summary` returns the extracted transaction object
`{"overview": "x"}`, not the original envelope as the claim states. -/
theorem get_transaction_missing_inner_data_counterexample :
    get_transaction_post
      (Json.obj [("data", Json.obj [("transaction",
        Json.obj [("overview", Json.str "x")])])]) "summary"
      = Json.obj [("overview", Json.str "x")]
    ∧ get_transaction_post
      (Json.obj [("data", Json.obj [("transaction",
        Json.obj [("overview", Json.str "x")])])]) "summary"
      ≠ Json.obj [("data", Json.obj [("transaction",
        Json.obj [("overview", Json.str "x")])])] := by
  constructor
  · rfl
  · intro hEq
    have h1 := congrArg (fun j => jsonLookup j "overview") hEq
    exact Option.noConfusion h1

/-- C4 (amended): extraction failures are swallowed, but what is
returned depends on where the failure happens — if the envelope lacks
`data` or `data.transaction`, the original envelope is returned
unmodified; if `data.transaction` is extracted but lacks the nested
`data` key, the extracted transaction object (not the envelope) is
returned unmodified, under scope `summary` as well as `full`. -/
theorem get_transaction_missing_key_fallback (envelope : Json) (scope : String) :
    ((∀ d, jsonLookup envelope "data" = some d → jsonLookup d "transaction" = none) →
      get_transaction_post envelope scope = envelope)
    ∧ (∀ d t, jsonLookup envelope "data" = some d →
        jsonLookup d "transaction" = some t → jsonLookup t "data" = none →
        (scope = "summary" ∨ scope = "full") →
        get_transaction_post envelope scope = t) := by
  constructor
  · intro hmiss
    unfold get_transaction_post
    cases hd : jsonLookup envelope "data" with
    | none => rfl
    | some d => simp only [hmiss d hd]
  · intro d t hd ht htd _hscope
    unfold get_transaction_post
    simp only [hd, ht]
    exact get_transaction_trim_no_data t scope htd

/-- C4 witness: an envelope with no `data` key comes back unmodified,
and an envelope whose transaction lacks the nested `data` field comes
back as that transaction object. -/
theorem get_transaction_missing_key_fallback_witness :
    get_transaction_post (Json.obj [("status", Json.str "ok")]) "summary"
      = Json.obj [("status", Json.str "ok")]
    ∧ get_transaction_post
        (Json.obj [("data", Json.obj [("transaction", Json.str "t")])]) "full"
      = Json.str "t" := by
  constructor
  · exact (get_transaction_missing_key_fallback
      (Json.obj [("status", Json.str "ok")]) "summary").1
      (by intro d hd; simp [jsonLookup, List.lookup] at hd)
  · exact (get_transaction_missing_key_fallback
      (Json.obj [("data", Json.obj [("transaction", Json.str "t")])]) "full").2
      (Json.obj [("transaction", Json.str "t")]) (Json.str "t")
      rfl rfl rfl (Or.inr rfl)

/-- C5: on a well-formed envelope
`{"data": {"transaction": {"data": D, ...rest}}}`, scope `summary`
returns the transaction object with the `data` key removed, and scope
`full` returns the inner `data` value `D` alone. -/
theorem get_transaction_scope_shapes (D : Json) (rest : List (String × Json)) :
    get_transaction_post
      (Json.obj [("data", Json.obj [("transaction",
        Json.obj (("data", D) :: rest))])]) "summary"
      = Json.obj rest
    ∧ get_transaction_post
      (Json.obj [("data", Json.obj [("transaction",
        Json.obj (("data", D) :: rest))])]) "full"
      = D :=
  ⟨rfl, rfl⟩

/-- C10: for a scope that is neither `summary` nor `full`, a well-formed
envelope yields the extracted `data.transaction` object unmodified, its
nested `data` field intact. -/
theorem get_transaction_unknown_scope (scope : String) (D : Json)
    (rest : List (String × Json))
    (hs : scope ≠ "summary") (hf : scope ≠ "full") :
    get_transaction_post
      (Json.obj [("data", Json.obj [("transaction",
        Json.obj (("data", D) :: rest))])]) scope
      = Json.obj (("data", D) :: rest) := by
  show get_transaction_trim (Json.obj (("data", D) :: rest)) scope
    = Json.obj (("data", D) :: rest)
  simp only [get_transaction_trim]
  rw [if_neg hs, if_neg hf]

/-- C10 witness: scope `"raw"` leaves the transaction object intact. -/
theorem get_transaction_unknown_scope_witness :
    get_transaction_post
      (Json.obj [("data", Json.obj [("transaction",
        Json.obj [("data", Json.null), ("overview", Json.str "x")])])]) "raw"
      = Json.obj [("data", Json.null), ("overview", Json.str "x")] :=
  get_transaction_unknown_scope "raw" Json.null [("overview", Json.str "x")]
    (by decide) (by decide)

/-! ## C6, C7 -/

/-- C6 counterexample: with a valid local credential and none of the
optional fields set (only the defaults `schema="person"`,
`scope="basic"`), `sanctions_screening` does not fail — it issues the
POST to the vendor API with an empty `properties` object. -/
theorem sanctions_screening_no_fields_counterexample :
    sanctions_screening ⟨false, some "k", []⟩ ({} : SanctionsArgs)
      = .ok { method := .post, url := url ++ "/sanctions_screening",
              params := [],
              jsonBody := some (Json.obj
                [("schema", Json.str "person"), ("scope", Json.str "basic"),
                 ("properties", Json.obj [])]),
              headers := [("Authorization", "Bearer k")] } := rfl

/-- C6 (amended): the at-least-one-property requirement is not enforced
locally — whenever the credential check passes, a call with no optional
field set still reaches the vendor API, as a POST whose body carries an
empty `properties` object. -/
theorem sanctions_screening_no_fields_sent (env : Env) (k : String)
    (h : check_apikey env = .ok k) :
    sanctions_screening env ({} : SanctionsArgs)
      = .ok { method := .post, url := url ++ "/sanctions_screening",
              params := [],
              jsonBody := some (Json.obj
                [("schema", Json.str "person"), ("scope", Json.str "basic"),
                 ("properties", Json.obj [])]),
              headers := bearer k } := by
  unfold sanctions_screening
  rw [h]
  rfl

/-- C6 witness: the amended statement at a concrete local environment. -/
theorem sanctions_screening_no_fields_sent_witness :
    sanctions_screening ⟨false, some "key", []⟩ ({} : SanctionsArgs)
      = .ok { method := .post, url := url ++ "/sanctions_screening",
              params := [],
              jsonBody := some (Json.obj
                [("schema", Json.str "person"), ("scope", Json.str "basic"),
                 ("properties", Json.obj [])]),
              headers := bearer "key" } :=
  sanctions_screening_no_fields_sent ⟨false, some "key", []⟩ "key" rfl

/-- C7: a `sanctions_screening` call with `name=["John Doe"]` and every
other optional field left at its default produces exactly the body
`{"schema": "person", "scope": "basic",
  "properties": {"name": ["John Doe"]}}`. -/
theorem sanctions_screening_name_only_body (env : Env) (k : String)
    (h : check_apikey env = .ok k) :
    sanctions_screening env { name := some ["John Doe"] }
      = .ok { method := .post, url := url ++ "/sanctions_screening",
              params := [],
              jsonBody := some (Json.obj
                [("schema", Json.str "person"), ("scope", Json.str "basic"),
                 ("properties", Json.obj
                   [("name", Json.arr [Json.str "John Doe"])])]),
              headers := bearer k } := by
  unfold sanctions_screening
  rw [h]
  rfl

/-- C7 witness: the statement at a concrete local environment. -/
theorem sanctions_screening_name_only_body_witness :
    sanctions_screening ⟨false, some "key", []⟩ { name := some ["John Doe"] }
      = .ok { method := .post, url := url ++ "/sanctions_screening",
              params := [],
              jsonBody := some (Json.obj
                [("schema", Json.str "person"), ("scope", Json.str "basic"),
                 ("properties", Json.obj
                   [("name", Json.arr [Json.str "John Doe"])])]),
              headers := bearer "key" } :=
  sanctions_screening_name_only_body ⟨false, some "key", []⟩ "key" rfl

/-! ## C8, C9 -/

/-- C8: the auto_trace payload includes `address` and omits `txnhash`
when both `address` (non-empty, hence truthy) and `txn_hash` are given;
with neither given, it carries a `txnhash` key whose value is `null`
(Python `None`); and the defaults `direct="in"`, `time_window=365`,
`min_amount=0` are applied when those parameters are not passed. -/
theorem auto_trace_payload_shape :
    (∀ a s h, a.address = some s → s ≠ "" → a.txn_hash = some h →
      jsonLookup (auto_trace_payload a) "address" = some (Json.str s)
      ∧ jsonLookup (auto_trace_payload a) "txnhash" = none)
    ∧ (∀ a, a.address = none → a.txn_hash = none →
      jsonLookup (auto_trace_payload a) "txnhash" = some Json.null)
    ∧ (∀ protocol time_from time_to,
      jsonLookup (auto_trace_payload
        { protocol := protocol, time_from := time_from, time_to := time_to })
        "direct" = some (Json.str "in")
      ∧ jsonLookup (auto_trace_payload
        { protocol := protocol, time_from := time_from, time_to := time_to })
        "time_window" = some (Json.num 365)
      ∧ jsonLookup (auto_trace_payload
        { protocol := protocol, time_from := time_from, time_to := time_to })
        "min_amount" = some (Json.num 0)) := by
  refine ⟨?_, ?_, ?_⟩
  · intro a s h ha hs hh
    have htr : truthyStr (some s) = true := by simp [truthyStr, hs]
    cases hm : truthyInt a.max_amount <;> cases ht2 : truthyStr a.token <;>
      constructor <;>
        simp [auto_trace_payload, jsonLookup, ha, htr, hm, ht2, List.lookup]
  · intro a ha hh
    simp [auto_trace_payload, jsonLookup, ha, hh, truthyStr, optStrJson,
      List.lookup]
  · intro protocol time_from time_to
    exact ⟨rfl, rfl, rfl⟩

/-- C8 witness: concrete call with both `address` and `txn_hash`. -/
theorem auto_trace_payload_shape_witness :
    jsonLookup (auto_trace_payload
      { protocol := "eth", time_from := 0, time_to := 1,
        address := some "0xabc", txn_hash := some "0xdead" }) "address"
      = some (Json.str "0xabc")
    ∧ jsonLookup (auto_trace_payload
      { protocol := "eth", time_from := 0, time_to := 1,
        address := some "0xabc", txn_hash := some "0xdead" }) "txnhash"
      = none :=
  auto_trace_payload_shape.1
    { protocol := "eth", time_from := 0, time_to := 1,
      address := some "0xabc", txn_hash := some "0xdead" }
    "0xabc" "0xdead" rfl (by decide) rfl

/-- C9 counterexample: `txn_hash=""` is NOT treated as absent — it puts
`"txnhash": ""` in the payload, while an absent `txn_hash` puts
`"txnhash": null`, so the two payloads differ. -/
theorem auto_trace_empty_txn_hash_counterexample :
    auto_trace_payload
      { protocol := "eth", time_from := 0, time_to := 1, txn_hash := some "" }
      = Json.obj [("proto", Json.str "eth"), ("direct", Json.str "in"),
          ("time_from", Json.num 0), ("time_to", Json.num 1),
          ("time_window", Json.num 365), ("min_amount", Json.num 0),
          ("txnhash", Json.str "")]
    ∧ auto_trace_payload { protocol := "eth", time_from := 0, time_to := 1 }
      = Json.obj [("proto", Json.str "eth"), ("direct", Json.str "in"),
          ("time_from", Json.num 0), ("time_to", Json.num 1),
          ("time_window", Json.num 365), ("min_amount", Json.num 0),
          ("txnhash", Json.null)]
    ∧ auto_trace_payload
      { protocol := "eth", time_from := 0, time_to := 1, txn_hash := some "" }
      ≠ auto_trace_payload { protocol := "eth", time_from := 0, time_to := 1 } := by
  refine ⟨rfl, rfl, ?_⟩
  intro hEq
  have h1 : some (Json.str "") = some Json.null :=
    congrArg (fun j => jsonLookup j "txnhash") hEq
  exact Json.noConfusion (Option.some.inj h1)

/-- C9 (amended): explicitly provided falsy optionals `max_amount=0`,
`token=""` and `address=""` are treated exactly as if absent (the key is
omitted, resp. the `address` branch falls through to `txnhash`), but a
provided `txn_hash=""` is inserted verbatim as `"txnhash": ""` (unlike
an absent `txn_hash`, which yields `"txnhash": null`). -/
theorem auto_trace_falsy_optionals (a : AutoTraceArgs) :
    auto_trace_payload { a with max_amount := some 0 }
      = auto_trace_payload { a with max_amount := none }
    ∧ auto_trace_payload { a with token := some "" }
      = auto_trace_payload { a with token := none }
    ∧ auto_trace_payload { a with address := some "" }
      = auto_trace_payload { a with address := none }
    ∧ jsonLookup (auto_trace_payload
        { a with address := none, txn_hash := some "" }) "txnhash"
      = some (Json.str "") :=
  ⟨rfl, rfl, rfl, rfl⟩
